import Mathlib

/-!
Verification of the deterministic cost/budget reconciliation core of the
Gantt-app repository (src/Gantt.py), shallowly embedded in Lean 4.

Python floats are modelled as exact rationals (`ℚ`); `round(x, n)` is
modelled as round-half-to-even at `n` decimal places (`pyRound`), the
tie-breaking rule of Python's `round`.  Concrete inputs used in theorems
are chosen away from representation-dependent ties so the rational model
agrees with the source's float arithmetic on them.
-/

namespace Gantt

/-- Round-half-to-even to the nearest integer, the rounding used by
Python's builtin `round`. -/
def rhe (q : ℚ) : ℤ :=
  if q - (⌊q⌋ : ℚ) < 1/2 then ⌊q⌋
  else if 1/2 < q - (⌊q⌋ : ℚ) then ⌊q⌋ + 1
  else if 2 ∣ ⌊q⌋ then ⌊q⌋ else ⌊q⌋ + 1

/-- Python `round(x, dp)` on the rational model. -/
def pyRound (x : ℚ) (dp : ℕ) : ℚ := (rhe (x * 10 ^ dp) : ℚ) / 10 ^ dp

/-- A Python scalar as it may reach the cost logic from the Oracle JSON:
`null` covers both JSON null and an absent key (Python `.get` yields `None`
for both, and `to_number(None) is None`); `num` is an int/float; `str`
covers any other object via its string form (`to_number` applies `str`
before stripping). -/
inductive Scalar where
  | null
  | num (q : ℚ)
  | str (s : String)
deriving DecidableEq

/-- Characters kept by the source's `re.sub(r'[^\d.\-]', '', s)`. -/
def keepChar (c : Char) : Bool := c.isDigit || c == '.' || c == '-'

/-- Numeric value of a digit string (used for both integer and fractional
parts of a Python float literal). -/
def digitsVal (cs : List Char) : ℕ :=
  cs.foldl (fun a c => a * 10 + (c.toNat - 48)) 0

/-- Python `float(s)` on a string already stripped to `[0-9.\-]` characters:
an optional leading minus sign, then `digits`, `digits.`, `digits.digits`
or `.digits`; anything else (stray `-`, second `.`, empty) fails. -/
def pyFloatOfChars (cs : List Char) : Option ℚ :=
  let (neg, body) :=
    match cs with
    | '-' :: rest => (true, rest)
    | _ => (false, cs)
  let intPart := body.takeWhile (fun c => c.isDigit)
  let rest := body.dropWhile (fun c => c.isDigit)
  let mag : Option ℚ :=
    match rest with
    | [] => if intPart.isEmpty then none else some (digitsVal intPart : ℚ)
    | '.' :: frac =>
      if frac.all (fun c => c.isDigit) && !(intPart.isEmpty && frac.isEmpty) then
        some ((digitsVal intPart : ℚ) + (digitsVal frac : ℚ) / (10 : ℚ) ^ frac.length)
      else none
    | _ => none
  mag.map (fun m => if neg then -m else m)

/-- Source `to_number` (src/Gantt.py:150): numbers pass through, `None`
stays absent, any other value is stringified, stripped to `[0-9.\-]` and
parsed as a float, yielding `none` on failure. -/
def to_number (v : Scalar) : Option ℚ :=
  match v with
  | .num q => some q
  | .null => none
  | .str s => pyFloatOfChars (s.toList.filter keepChar)

/-! Market-rate table, source `get_market_price` (src/Gantt.py:222). -/

def market_labour_hour : ℚ := 8
def market_labour_per_hr : ℚ := 25
def market_material_units : ℚ := 5
def market_material_per_unit : ℚ := 50
def market_travel : ℚ := 10
def market_equipment : ℚ := 30
def market_fixed : ℚ := 0
def market_misc : ℚ := 15

/-- The structured labour sub-record `{hours, per_hr, total}`; `.null`
fields model absent keys. -/
structure LabourDict where
  hours : Scalar := .null
  per_hr : Scalar := .null
  total : Scalar := .null
deriving DecidableEq

/-- The structured material sub-record `{units, per_unit, total}`. -/
structure MaterialDict where
  units : Scalar := .null
  per_unit : Scalar := .null
  total : Scalar := .null
deriving DecidableEq

/-- A labour entry of the `costs` mapping: either a dict (the
`isinstance(..., dict)` branch) or any other value, `.plain .null`
covering an absent key. -/
inductive LabourVal where
  | dict (d : LabourDict)
  | plain (v : Scalar)
deriving DecidableEq

/-- A material entry of the `costs` mapping. -/
inductive MaterialVal where
  | dict (d : MaterialDict)
  | plain (v : Scalar)
deriving DecidableEq

/-- The per-task `costs` mapping. -/
structure Costs where
  labour : LabourVal := .plain .null
  material : MaterialVal := .plain .null
  travel : Scalar := .null
  equipment : Scalar := .null
  fixed : Scalar := .null
  misc : Scalar := .null
deriving DecidableEq

/-- Labour half of `_baseline_labour_material` (src/Gantt.py:234): in the
dict branch a parsed `total` wins outright, else supplied-or-default
hours × rate; in the scalar branch a parsed number wins, else the full
market default product. -/
def baseline_labour (costs : Costs) : ℚ :=
  match costs.labour with
  | .dict l =>
    match to_number l.total with
    | some t => t
    | none =>
      (to_number l.hours).getD market_labour_hour *
        (to_number l.per_hr).getD market_labour_per_hr
  | .plain v =>
    match to_number v with
    | some t => t
    | none => market_labour_hour * market_labour_per_hr

/-- Material half of `_baseline_labour_material` (src/Gantt.py:256). -/
def baseline_material (costs : Costs) : ℚ :=
  match costs.material with
  | .dict m =>
    match to_number m.total with
    | some t => t
    | none =>
      (to_number m.units).getD market_material_units *
        (to_number m.per_unit).getD market_material_per_unit
  | .plain v =>
    match to_number v with
    | some t => t
    | none => market_material_units * market_material_per_unit

/-- `_baseline_labour_material` returns the pair (src/Gantt.py:276). -/
def baseline_labour_material (costs : Costs) : ℚ × ℚ :=
  (baseline_labour costs, baseline_material costs)

/-- Result of `_other_components` (src/Gantt.py:278). -/
structure OtherComp where
  travel : ℚ
  equipment : ℚ
  fixed : ℚ
  misc : ℚ
deriving DecidableEq

/-- `_other_components`: each scalar category is the parsed supplied value
if numeric, else the market default. -/
def other_components (costs : Costs) : OtherComp :=
  { travel := (to_number costs.travel).getD market_travel
    equipment := (to_number costs.equipment).getD market_equipment
    fixed := (to_number costs.fixed).getD market_fixed
    misc := (to_number costs.misc).getD market_misc }

/-- `other_total` as summed at src/Gantt.py:380. -/
def other_total (costs : Costs) : ℚ :=
  (other_components costs).travel + (other_components costs).equipment +
    (other_components costs).fixed + (other_components costs).misc

/-- The test `x not in (None, 0)` used by `_backsolve_pair` on its
operands: true exactly for a supplied non-zero number. -/
def suppliedNZ (x : Option ℚ) : Bool :=
  match x with
  | none => false
  | some q => decide (q ≠ 0)

/-- The anchor chosen by `_backsolve_pair` when neither operand is usable:
`default_first if default_first not in (None, 0) else 1.0`. -/
def backsolveAnchor (default_first : Option ℚ) : ℚ :=
  if suppliedNZ default_first then default_first.getD 0 else 1

/-- `_backsolve_pair` (src/Gantt.py:291).  `t = float(total or 0)`; if
`t <= 0` return `(0, 0)`.  The source's both-supplied branch and its
first-only branch compute the same pair, kept as two branches here as in
the source.  `default_second` is accepted and never used, as in the
source. -/
def backsolve_pair (total first second default_first default_second : Option ℚ)
    (max_dp : ℕ) : ℚ × ℚ :=
  if total.getD 0 ≤ 0 then (0, 0)
  else if suppliedNZ first && suppliedNZ second then
    (first.getD 0, pyRound (total.getD 0 / first.getD 0) max_dp)
  else if suppliedNZ first then
    (first.getD 0, pyRound (total.getD 0 / first.getD 0) max_dp)
  else if suppliedNZ second then
    (pyRound (total.getD 0 / second.getD 0) max_dp, second.getD 0)
  else
    (backsolveAnchor default_first,
      pyRound (total.getD 0 / backsolveAnchor default_first) max_dp)

/-! Allocation engine: the per-task branch of `fill_budget_excel`
(src/Gantt.py:393-413), written as a function from the resolved baselines,
the other-components total and the selected estimate to the triple
`(labour_final, material_final, task_total)`. -/

/-- The no-estimate branch (src/Gantt.py:405-413). -/
def baseline_alloc (labour_base material_base ot : ℚ) : ℚ × ℚ × ℚ :=
  (pyRound labour_base 2, pyRound material_base 2,
    pyRound (pyRound labour_base 2 + pyRound material_base 2 + ot) 2)

/-- The override branch (src/Gantt.py:394-404): `lm_base_sum =
max(labour_base + material_base, 1e-6)`, `remainder = max(0, estimated -
other_total)`, labour share rounded to 2 dp, material share the rounded
residual, task total the estimate verbatim. -/
def override_alloc (labour_base material_base ot e : ℚ) : ℚ × ℚ × ℚ :=
  (pyRound (max 0 (e - ot) * (labour_base / max (labour_base + material_base) (1/1000000))) 2,
    pyRound (max 0 (e - ot) -
      pyRound (max 0 (e - ot) * (labour_base / max (labour_base + material_base) (1/1000000))) 2) 2,
    e)

/-- The `if estimated is not None and estimated >= 0` dispatch
(src/Gantt.py:394). -/
def allocate (labour_base material_base ot : ℚ) (estimated : Option ℚ) : ℚ × ℚ × ℚ :=
  match estimated with
  | some e =>
    if 0 ≤ e then override_alloc labour_base material_base ot e
    else baseline_alloc labour_base material_base ot
  | none => baseline_alloc labour_base material_base ot

/-- A task as consumed by the writers.  `start`/`end_` hold the outcome of
`parse_date` on the corresponding field: `none` models a field that is
absent, null, or unparsable in every supported format (the source maps all
three to Python `None`); dates themselves are abstracted to day numbers,
no claim depending on the calendar formats. -/
structure Task where
  description : String := ""
  assigned_to : String := ""
  start : Option Nat := none
  end_ : Option Nat := none
  costs : Costs := {}
  estimated_cost : Scalar := .null
  budget : Scalar := .null
  est_cost : Scalar := .null
  cost : Scalar := .null
deriving DecidableEq

/-- Python `a or b` on `to_number` results: `None` and `0.0` are both
falsy, so a parsed zero falls through to the next operand. -/
def pyOrNum (a b : Option ℚ) : Option ℚ :=
  match a with
  | some q => if q = 0 then b else some q
  | none => b

/-- Selection of the explicit estimate (src/Gantt.py:389-391):
`estimated = to_number(task.get("estimated_cost"))`, and if that is `None`,
`to_number(task.get("budget")) or to_number(task.get("est_cost")) or
to_number(task.get("cost"))`. -/
def estimatedOf (t : Task) : Option ℚ :=
  match to_number t.estimated_cost with
  | some e => some e
  | none => pyOrNum (pyOrNum (to_number t.budget) (to_number t.est_cost)) (to_number t.cost)

/-- The estimate that actually drives the override branch: the selected
value when it is present and non-negative (src/Gantt.py:394). -/
def ovr (x : Option ℚ) : Option ℚ :=
  match x with
  | some e => if 0 ≤ e then some e else none
  | none => none

/-- Override condition per task. -/
def overrideVal (t : Task) : Option ℚ := ovr (estimatedOf t)

/-- The numeric and date cells of one row of the budget sheet, named after
their columns (src/Gantt.py:366-449). -/
structure BudgetRow where
  descC : String
  startE : Nat
  endG : Option Nat
  hoursH : ℚ
  rateI : ℚ
  labourJ : ℚ
  unitsK : ℚ
  unitPriceL : ℚ
  materialM : ℚ
  travelN : ℚ
  equipmentO : ℚ
  fixedP : ℚ
  miscQ : ℚ
  budgetS : Option ℚ
  totalT : ℚ
deriving DecidableEq

/-- One iteration of the `fill_budget_excel` task loop (src/Gantt.py:366):
`sd` is the resolved project start date, `n_tasks = len(tasks)`,
`total_budget` the parsed project-level budget.  `endG` is
`parse_date(task.get("end")) or None` (src/Gantt.py:374), written as-is. -/
def budgetRow (sd : Nat) (n_tasks : Nat) (total_budget : Option ℚ) (task : Task) :
    BudgetRow :=
  let costs := task.costs
  let finals := allocate (baseline_labour_material costs).1 (baseline_labour_material costs).2
    (other_total costs) (estimatedOf task)
  let hours_in := match costs.labour with
    | .dict l => to_number l.hours
    | .plain _ => none
  let rate_in := match costs.labour with
    | .dict l => to_number l.per_hr
    | .plain _ => none
  let hr := backsolve_pair (some finals.1) hours_in rate_in
    (some market_labour_hour) (some market_labour_per_hr) 4
  let units_in := match costs.material with
    | .dict m => to_number m.units
    | .plain _ => none
  let unit_price_in := match costs.material with
    | .dict m => to_number m.per_unit
    | .plain _ => none
  let ku := backsolve_pair (some finals.2.1) units_in unit_price_in
    (some market_material_units) (some market_material_per_unit) 4
  { descC := task.description
    startE := task.start.getD sd
    endG := task.end_
    hoursH := hr.1
    rateI := hr.2
    labourJ := finals.1
    unitsK := ku.1
    unitPriceL := ku.2
    materialM := finals.2.1
    travelN := (other_components costs).travel
    equipmentO := (other_components costs).equipment
    fixedP := (other_components costs).fixed
    miscQ := (other_components costs).misc
    budgetS :=
      match to_number task.budget with
      | some b => some b
      | none =>
        match total_budget with
        | some tb => if 0 < n_tasks then some (pyRound (tb / (n_tasks : ℚ)) 2) else none
        | none => none
    totalT := finals.2.2 }

/-- `fill_budget_excel` row materialization: every task is written with
`n_tasks = len(tasks)` (src/Gantt.py:362,366). -/
def fill_budget_rows (sd : Nat) (total_budget : Option ℚ) (tasks : List Task) :
    List BudgetRow :=
  tasks.map (budgetRow sd tasks.length total_budget)

/-- The date and text cells of one Gantt-sheet row (src/Gantt.py:331-349). -/
structure GanttRow where
  descD : String
  assignedE : String
  startF : Nat
  endG : Nat
deriving DecidableEq

/-- One iteration of the `fill_gantt_excel` task loop (src/Gantt.py:331):
`start = parse_date(task.get("start")) or sd`, `end = parse_date(
task.get("end")) or start`. -/
def ganttRow (sd : Nat) (task : Task) : GanttRow :=
  { descD := task.description
    assignedE := task.assigned_to
    startF := task.start.getD sd
    endG := task.end_.getD (task.start.getD sd) }

/-- `fill_gantt_excel` row materialization. -/
def fill_gantt_rows (sd : Nat) (tasks : List Task) : List GanttRow :=
  tasks.map (ganttRow sd)

/-- `extract_json_from_response` (src/Gantt.py:82): `re.search` of the
pattern from a literal opening brace through anything to a literal closing
brace.  A match exists exactly when some closing brace follows the first
opening brace; being greedy it runs to the last closing brace of the whole
text.  Without a match the raw content is returned unchanged. -/
def extract_json_from_response (content : String) : String :=
  let cs := content.toList
  match cs.findIdx? (fun c => c == '{') with
  | none => content
  | some i =>
    match cs.reverse.findIdx? (fun c => c == '}') with
    | none => content
    | some rj =>
      let j := cs.length - 1 - rj
      if i < j then String.mk ((cs.drop i).take (j - i + 1)) else content

/-- The parse-or-raise step of `extract_tasks_with_gpt` (src/Gantt.py:201-
208), abstracted over the JSON parser: on `json.loads` failure the source
shows an error, prints the raw response text and re-raises, so the run
yields no plan and the raw text is what the error path carries; on
success the parsed payload is returned. -/
def oracle_payload_result {α : Type} (parseJson : String → Option α) (content : String) :
    Except String α :=
  match parseJson (extract_json_from_response content) with
  | some plan => Except.ok plan
  | none => Except.error content

/-! General lemmas about the rounding model. -/

/-- Round-half-to-even lands within half a unit of its argument. -/
theorem rhe_err (q : ℚ) : |(rhe q : ℚ) - q| ≤ 1/2 := by
  have h1 : ((⌊q⌋ : ℤ) : ℚ) ≤ q := Int.floor_le q
  have h2 : q < (⌊q⌋ : ℚ) + 1 := Int.lt_floor_add_one q
  unfold rhe
  split_ifs with ha hb hc
  · rw [abs_le]
    constructor <;> linarith
  · rw [abs_le]
    push_cast
    constructor <;> linarith
  · rw [abs_le]
    constructor <;> linarith
  · rw [abs_le]
    push_cast
    constructor <;> linarith

/-- Round-half-to-even fixes integers. -/
theorem rhe_int (m : ℤ) : rhe (m : ℚ) = m := by
  unfold rhe
  rw [Int.floor_intCast]
  norm_num

/-- `pyRound` at `dp` decimals returns an integer multiple of `10 ^ (-dp)`. -/
theorem pyRound_form (x : ℚ) (dp : ℕ) :
    pyRound x dp = (rhe (x * 10 ^ dp) : ℚ) / 10 ^ dp := rfl

/-- A value that is already an exact multiple of `10 ^ (-dp)` is fixed by
`pyRound`. -/
theorem pyRound_fix (x : ℚ) (dp : ℕ) (m : ℤ) (h : x * 10 ^ dp = (m : ℚ)) :
    pyRound x dp = x := by
  have h0 : (10 : ℚ) ^ dp ≠ 0 := by positivity
  unfold pyRound
  rw [h, rhe_int, ← h]
  field_simp

/-- `pyRound` introduces an absolute error of at most half a unit in the
last kept decimal place. -/
theorem pyRound_err (x : ℚ) (dp : ℕ) : |pyRound x dp - x| ≤ 1 / (2 * 10 ^ dp) := by
  have h0 : (0:ℚ) < 10 ^ dp := by positivity
  have h := rhe_err (x * 10 ^ dp)
  have key : pyRound x dp - x = ((rhe (x * 10 ^ dp) : ℚ) - x * 10 ^ dp) / 10 ^ dp := by
    unfold pyRound
    field_simp
    ring
  rw [key, abs_div, abs_of_pos h0, div_le_div_iff h0 (by positivity)]
  calc |(rhe (x * 10 ^ dp) : ℚ) - x * 10 ^ dp| * (2 * 10 ^ dp)
      ≤ (1/2) * (2 * 10 ^ dp) := mul_le_mul_of_nonneg_right h (by positivity)
    _ = 1 * 10 ^ dp := by ring

/-- `pyRound _ 2` produces a whole number of hundredths. -/
theorem pyRound2_cents (x : ℚ) : ∃ k : ℤ, pyRound x 2 = (k : ℚ) / 100 := by
  refine ⟨rhe (x * 10 ^ 2), ?_⟩
  rw [pyRound_form]
  norm_num

/-! Exactness of the override split and the baseline total. -/

/-- When the remainder is a whole number of hundredths, the rounded labour
share plus the rounded residual material share reconstruct it exactly. -/
theorem split_exact (rem r : ℚ) (m : ℤ) (hm : rem = (m : ℚ) / 100) :
    pyRound (rem * r) 2 + pyRound (rem - pyRound (rem * r) 2) 2 = rem := by
  obtain ⟨k, hk⟩ := pyRound2_cents (rem * r)
  have h2 : rem - pyRound (rem * r) 2 = ((m - k : ℤ) : ℚ) / 100 := by
    rw [hk, hm]
    push_cast
    ring
  have h3 : pyRound (rem - pyRound (rem * r) 2) 2 = rem - pyRound (rem * r) 2 := by
    apply pyRound_fix _ _ (m - k)
    rw [h2]
    push_cast
    norm_num
  rw [h3]
  ring

/-- Override branch: with a remainder of exact cents, the two final
labour/material figures sum exactly to the remainder, and the reported
total is the estimate verbatim. -/
theorem override_alloc_exact (lb mb ot e : ℚ) (m : ℤ)
    (hge : ot ≤ e) (hm : e - ot = (m : ℚ) / 100) :
    (override_alloc lb mb ot e).1 + (override_alloc lb mb ot e).2.1 = e - ot ∧
      (override_alloc lb mb ot e).2.2 = e := by
  have hrem : max 0 (e - ot) = e - ot := max_eq_right (by linarith)
  constructor
  · show pyRound (max 0 (e - ot) * _) 2 + pyRound (max 0 (e - ot) - _) 2 = e - ot
    rw [hrem]
    exact split_exact (e - ot) _ m hm
  · rfl

/-- Baseline branch: with an other-components total of exact cents, the
reported task total is exactly the sum of the three parts. -/
theorem baseline_alloc_exact (lb mb ot : ℚ) (m : ℤ) (hm : ot = (m : ℚ) / 100) :
    (baseline_alloc lb mb ot).2.2 =
      (baseline_alloc lb mb ot).1 + (baseline_alloc lb mb ot).2.1 + ot := by
  obtain ⟨k1, hk1⟩ := pyRound2_cents lb
  obtain ⟨k2, hk2⟩ := pyRound2_cents mb
  show pyRound (pyRound lb 2 + pyRound mb 2 + ot) 2 = pyRound lb 2 + pyRound mb 2 + ot
  apply pyRound_fix _ _ (k1 + k2 + m)
  rw [hk1, hk2, hm]
  push_cast
  norm_num
  ring

/-- `allocate` dispatch in terms of the override condition. -/
theorem allocate_ovr (lb mb ot : ℚ) (x : Option ℚ) :
    allocate lb mb ot x =
      match ovr x with
      | some e => override_alloc lb mb ot e
      | none => baseline_alloc lb mb ot := by
  cases x with
  | none => rfl
  | some e =>
    by_cases h : 0 ≤ e
    · simp [allocate, ovr, h]
    · simp [allocate, ovr, h]

/-- Reading off the non-zero operand guaranteed by `suppliedNZ`. -/
theorem suppliedNZ_getD (x : Option ℚ) (h : suppliedNZ x = true) : x.getD 0 ≠ 0 := by
  cases x with
  | none => simp [suppliedNZ] at h
  | some q => simpa [suppliedNZ] using h

/-- The anchor of the defaults branch is never zero. -/
theorem backsolveAnchor_ne_zero (df : Option ℚ) : backsolveAnchor df ≠ 0 := by
  unfold backsolveAnchor
  split_ifs with h
  · exact suppliedNZ_getD df h
  · norm_num

/-- Error of one back-solve step: keeping operand `k ≠ 0` and rounding the
other to 4 decimals perturbs the product by at most `|k| / 20000`. -/
theorem backsolve_err (T k : ℚ) (hk : k ≠ 0) :
    |k * pyRound (T / k) 4 - T| ≤ |k| * (1 / 20000) := by
  have h := pyRound_err (T / k) 4
  have hsplit : k * pyRound (T / k) 4 - T = k * (pyRound (T / k) 4 - T / k) := by
    field_simp
    ring
  rw [hsplit, abs_mul]
  calc |k| * |pyRound (T / k) 4 - T / k| ≤ |k| * (1 / (2 * 10 ^ 4)) :=
        mul_le_mul_of_nonneg_left h (abs_nonneg k)
    _ = |k| * (1 / 20000) := by norm_num

/-! Projection lemmas for the budget row (all definitional). -/

theorem budgetRow_labourJ (sd n : Nat) (tb : Option ℚ) (t : Task) :
    (budgetRow sd n tb t).labourJ =
      (allocate (baseline_labour t.costs) (baseline_material t.costs)
        (other_total t.costs) (estimatedOf t)).1 := rfl

theorem budgetRow_materialM (sd n : Nat) (tb : Option ℚ) (t : Task) :
    (budgetRow sd n tb t).materialM =
      (allocate (baseline_labour t.costs) (baseline_material t.costs)
        (other_total t.costs) (estimatedOf t)).2.1 := rfl

theorem budgetRow_totalT (sd n : Nat) (tb : Option ℚ) (t : Task) :
    (budgetRow sd n tb t).totalT =
      (allocate (baseline_labour t.costs) (baseline_material t.costs)
        (other_total t.costs) (estimatedOf t)).2.2 := rfl

theorem budgetRow_others_sum (sd n : Nat) (tb : Option ℚ) (t : Task) :
    (budgetRow sd n tb t).travelN + (budgetRow sd n tb t).equipmentO +
      (budgetRow sd n tb t).fixedP + (budgetRow sd n tb t).miscQ =
      other_total t.costs := rfl

theorem budgetRow_budgetS (sd n : Nat) (tb : Option ℚ) (t : Task) :
    (budgetRow sd n tb t).budgetS =
      match to_number t.budget with
      | some b => some b
      | none =>
        match tb with
        | some v => if 0 < n then some (pyRound (v / (n : ℚ)) 2) else none
        | none => none := rfl

theorem budgetRow_startE (sd n : Nat) (tb : Option ℚ) (t : Task) :
    (budgetRow sd n tb t).startE = t.start.getD sd := rfl

theorem budgetRow_endG (sd n : Nat) (tb : Option ℚ) (t : Task) :
    (budgetRow sd n tb t).endG = t.end_ := rfl

/-- Reading a row of either materialized sheet. -/
theorem fill_budget_rows_get (sd : Nat) (tb : Option ℚ) (tasks : List Task) (i : Nat) :
    (fill_budget_rows sd tb tasks).get? i =
      (tasks.get? i).map (budgetRow sd tasks.length tb) := by
  simp [fill_budget_rows]

theorem fill_gantt_rows_get (sd : Nat) (tasks : List Task) (i : Nat) :
    (fill_gantt_rows sd tasks).get? i = (tasks.get? i).map (ganttRow sd) := by
  simp [fill_gantt_rows]

/-- Dispatch of `allocate` when the override condition is off. -/
theorem allocate_of_ovr_none (lb mb ot : ℚ) (x : Option ℚ) (h : ovr x = none) :
    allocate lb mb ot x = baseline_alloc lb mb ot := by
  cases x with
  | none => rfl
  | some e =>
    by_cases h0 : 0 ≤ e
    · simp [ovr, h0] at h
    · simp [allocate, h0]

/-- Dispatch of `allocate` when the override condition selects `e`. -/
theorem allocate_of_ovr_some (lb mb ot : ℚ) (x : Option ℚ) (e : ℚ) (h : ovr x = some e) :
    allocate lb mb ot x = override_alloc lb mb ot e ∧ 0 ≤ e := by
  cases x with
  | none => simp [ovr] at h
  | some e0 =>
    by_cases h0 : 0 ≤ e0
    · simp only [ovr, if_pos h0, Option.some.injEq] at h
      subst h
      exact ⟨by simp [allocate, h0], h0⟩
    · simp [ovr, h0] at h

/-! Non-negativity predicates for the resolver inputs, used to state the
amended form of the resolver guarantee. -/

/-- A scalar whose parsed numeric value (if any) is non-negative. -/
def scalar_nonneg (v : Scalar) : Bool :=
  match to_number v with
  | some q => decide (0 ≤ q)
  | none => true

def labour_nonneg : LabourVal → Bool
  | .dict l => scalar_nonneg l.hours && scalar_nonneg l.per_hr && scalar_nonneg l.total
  | .plain v => scalar_nonneg v

def material_nonneg : MaterialVal → Bool
  | .dict m => scalar_nonneg m.units && scalar_nonneg m.per_unit && scalar_nonneg m.total
  | .plain v => scalar_nonneg v

/-- All numeric values supplied in a `costs` mapping are non-negative. -/
def costs_nonneg (c : Costs) : Bool :=
  labour_nonneg c.labour && material_nonneg c.material && scalar_nonneg c.travel &&
    scalar_nonneg c.equipment && scalar_nonneg c.fixed && scalar_nonneg c.misc

theorem scalar_nonneg_some (v : Scalar) (q : ℚ) (h : scalar_nonneg v = true)
    (hq : to_number v = some q) : 0 ≤ q := by
  unfold scalar_nonneg at h
  rw [hq] at h
  simpa using h

theorem scalar_nonneg_getD (v : Scalar) (d : ℚ) (hd : 0 ≤ d) (h : scalar_nonneg v = true) :
    0 ≤ (to_number v).getD d := by
  cases hv : to_number v with
  | none => simpa [hv]
  | some q => simpa [hv] using scalar_nonneg_some v q h hv

theorem baseline_labour_nonneg (c : Costs) (h : labour_nonneg c.labour = true) :
    0 ≤ baseline_labour c := by
  cases hl : c.labour with
  | dict l =>
    rw [hl] at h
    simp only [labour_nonneg, Bool.and_eq_true] at h
    obtain ⟨⟨hh, hr⟩, ht⟩ := h
    simp only [baseline_labour, hl]
    cases hv : to_number l.total with
    | some tval =>
      simp only [hv]
      exact scalar_nonneg_some l.total tval ht hv
    | none =>
      simp only [hv]
      exact mul_nonneg
        (scalar_nonneg_getD l.hours market_labour_hour (by norm_num [market_labour_hour]) hh)
        (scalar_nonneg_getD l.per_hr market_labour_per_hr (by norm_num [market_labour_per_hr]) hr)
  | plain v =>
    rw [hl] at h
    simp only [labour_nonneg] at h
    simp only [baseline_labour, hl]
    cases hv : to_number v with
    | some tval =>
      simp only [hv]
      exact scalar_nonneg_some v tval h hv
    | none =>
      simp only [hv]
      norm_num [market_labour_hour, market_labour_per_hr]

theorem baseline_material_nonneg (c : Costs) (h : material_nonneg c.material = true) :
    0 ≤ baseline_material c := by
  cases hl : c.material with
  | dict m =>
    rw [hl] at h
    simp only [material_nonneg, Bool.and_eq_true] at h
    obtain ⟨⟨hu, hp⟩, ht⟩ := h
    simp only [baseline_material, hl]
    cases hv : to_number m.total with
    | some tval =>
      simp only [hv]
      exact scalar_nonneg_some m.total tval ht hv
    | none =>
      simp only [hv]
      exact mul_nonneg
        (scalar_nonneg_getD m.units market_material_units (by norm_num [market_material_units]) hu)
        (scalar_nonneg_getD m.per_unit market_material_per_unit
          (by norm_num [market_material_per_unit]) hp)
  | plain v =>
    rw [hl] at h
    simp only [material_nonneg] at h
    simp only [baseline_material, hl]
    cases hv : to_number v with
    | some tval =>
      simp only [hv]
      exact scalar_nonneg_some v tval h hv
    | none =>
      simp only [hv]
      norm_num [market_material_units, market_material_per_unit]

/-- Unfolded form of the estimate selection: a parsed `estimated_cost`
(zero included) always wins; a parsed zero in `budget` or `est_cost` is
falsy for Python `or` and falls through; the final `cost` operand is
returned as-is. -/
theorem estimatedOf_eq (t : Task) :
    estimatedOf t =
      match to_number t.estimated_cost with
      | some e => some e
      | none =>
        match to_number t.budget with
        | some b =>
          if b = 0 then
            match to_number t.est_cost with
            | some c => if c = 0 then to_number t.cost else some c
            | none => to_number t.cost
          else some b
        | none =>
          match to_number t.est_cost with
          | some c => if c = 0 then to_number t.cost else some c
          | none => to_number t.cost := by
  unfold estimatedOf pyOrNum
  cases to_number t.estimated_cost with
  | some e => rfl
  | none =>
    cases to_number t.budget with
    | none =>
      cases to_number t.est_cost with
      | none => rfl
      | some c =>
        by_cases hc : c = 0 <;> simp [hc]
    | some b =>
      by_cases hb : b = 0
      · cases to_number t.est_cost with
        | none => simp [hb]
        | some c =>
          by_cases hc : c = 0 <;> simp [hb, hc]
      · simp [hb]

/-- C6 (confirmed): Budget Distributor — for every task, an explicit
per-task budget (its parsed numeric value, zero included) is written
verbatim into the budget column; otherwise, with a project-level total
budget present and the full task count `n ≥ 1` as divisor, the task gets
`round(total / n, 2)` with no reconciliation of the rounding remainder;
otherwise the budget cell stays unset. -/
theorem C6_budget_distributor (sd : Nat) (total_budget : Option ℚ) (tasks : List Task)
    (i : Nat) (t : Task) (h : tasks.get? i = some t) :
    (fill_budget_rows sd total_budget tasks).get? i =
        some (budgetRow sd tasks.length total_budget t) ∧
    (∀ b, to_number t.budget = some b →
      (budgetRow sd tasks.length total_budget t).budgetS = some b) ∧
    (∀ tb, to_number t.budget = none → total_budget = some tb →
      (budgetRow sd tasks.length total_budget t).budgetS =
        some (pyRound (tb / (tasks.length : ℚ)) 2)) ∧
    (to_number t.budget = none → total_budget = none →
      (budgetRow sd tasks.length total_budget t).budgetS = none) := by
  have hi : i < tasks.length := by
    by_contra hge
    rw [List.get?_eq_none.mpr (le_of_not_lt hge)] at h
    exact Option.noConfusion h
  have hlen : 0 < tasks.length := lt_of_le_of_lt (Nat.zero_le i) hi
  refine ⟨?_, ?_, ?_, ?_⟩
  · rw [fill_budget_rows_get, h]
    rfl
  · intro b hb
    rw [budgetRow_budgetS]
    simp [hb]
  · intro tb hb htb
    subst htb
    rw [budgetRow_budgetS]
    simp [hb, hlen]
  · intro hb htb
    subst htb
    rw [budgetRow_budgetS]
    simp [hb]

/-- Witness for C6 at a concrete two-task project: the first task's
explicit budget 100 is written verbatim even with a total budget present. -/
theorem C6_budget_distributor_witness :
    (fill_budget_rows 0 (some 90) [{ budget := Scalar.num 100 }, {}]).get? 0 =
        some (budgetRow 0 2 (some 90) { budget := Scalar.num 100 }) ∧
    (budgetRow 0 2 (some 90) { budget := Scalar.num 100 }).budgetS = some 100 := by
  have h := C6_budget_distributor 0 (some 90) [{ budget := Scalar.num 100 }, {}] 0
    { budget := Scalar.num 100 } rfl
  exact ⟨h.1, h.2.1 100 rfl⟩

/-- C9 (confirmed): when the Oracle's raw response does not parse as JSON
after the outermost-brace extraction, the run produces no plan and the
error path carries the raw text (the source prints the raw response and
re-raises); it never substitutes an empty or partial plan. -/
theorem C9_payload_error {α : Type} (parseJson : String → Option α) (content : String)
    (h : parseJson (extract_json_from_response content) = none) :
    oracle_payload_result parseJson content = Except.error content := by
  unfold oracle_payload_result
  rw [h]

/-- Witness for C9: a parser that rejects everything yields the error
carrying the raw text. -/
theorem C9_payload_error_witness :
    oracle_payload_result (fun _ => (none : Option Nat)) "bad oracle output" =
      Except.error "bad oracle output" :=
  C9_payload_error (fun _ => (none : Option Nat)) "bad oracle output" rfl

/-- C1 counterexample: with an explicit estimate 10 and empty costs, the
written task total is 10 while the written subtotals sum to 55 (the four
market-default scalar components), so the sum-of-subtotals = task-total
identity fails when the explicit total is below the scalar-component sum,
contrary to the claim. -/
theorem C1_counterexample :
    (budgetRow 0 1 none { estimated_cost := Scalar.num 10 }).totalT ≠
      (budgetRow 0 1 none { estimated_cost := Scalar.num 10 }).labourJ +
        (budgetRow 0 1 none { estimated_cost := Scalar.num 10 }).materialM +
        (budgetRow 0 1 none { estimated_cost := Scalar.num 10 }).travelN +
        (budgetRow 0 1 none { estimated_cost := Scalar.num 10 }).equipmentO +
        (budgetRow 0 1 none { estimated_cost := Scalar.num 10 }).fixedP +
        (budgetRow 0 1 none { estimated_cost := Scalar.num 10 }).miscQ := by
  norm_num [budgetRow, allocate, override_alloc, baseline_alloc, estimatedOf, pyOrNum,
    to_number, baseline_labour_material, baseline_labour, baseline_material, other_total,
    other_components, market_labour_hour, market_labour_per_hr, market_material_units,
    market_material_per_unit, market_travel, market_equipment, market_fixed, market_misc,
    pyRound, rhe]

/-- C1 (amended): the written task total equals the sum of the written
subtotals in the no-override branch whenever the other-components total is
a whole number of hundredths, and in the override branch whenever the
override is at least the other-components total and their difference is a
whole number of hundredths (the labour/material re-split then absorbs the
difference exactly); with an override below the scalar-component sum the
identity does not hold (see the counterexample). -/
theorem C1_task_total_identity (sd n : Nat) (tb : Option ℚ) (t : Task) :
    (overrideVal t = none →
      (∃ m : ℤ, other_total t.costs = (m : ℚ) / 100) →
      (budgetRow sd n tb t).totalT =
        (budgetRow sd n tb t).labourJ + (budgetRow sd n tb t).materialM +
          (budgetRow sd n tb t).travelN + (budgetRow sd n tb t).equipmentO +
          (budgetRow sd n tb t).fixedP + (budgetRow sd n tb t).miscQ) ∧
    (∀ (e : ℚ) (m : ℤ), overrideVal t = some e →
      other_total t.costs ≤ e →
      e - other_total t.costs = (m : ℚ) / 100 →
      (budgetRow sd n tb t).totalT =
        (budgetRow sd n tb t).labourJ + (budgetRow sd n tb t).materialM +
          (budgetRow sd n tb t).travelN + (budgetRow sd n tb t).equipmentO +
          (budgetRow sd n tb t).fixedP + (budgetRow sd n tb t).miscQ) := by
  have hsum := budgetRow_others_sum sd n tb t
  constructor
  · rintro hov ⟨m, hm⟩
    have hall := allocate_of_ovr_none (baseline_labour t.costs) (baseline_material t.costs)
      (other_total t.costs) (estimatedOf t) hov
    have hx := baseline_alloc_exact (baseline_labour t.costs) (baseline_material t.costs)
      (other_total t.costs) m hm
    rw [budgetRow_totalT, budgetRow_labourJ, budgetRow_materialM, hall]
    linarith [hx, hsum]
  · intro e m hov hge hm
    have hall := (allocate_of_ovr_some (baseline_labour t.costs) (baseline_material t.costs)
      (other_total t.costs) (estimatedOf t) e hov).1
    have hx := override_alloc_exact (baseline_labour t.costs) (baseline_material t.costs)
      (other_total t.costs) e m hge hm
    rw [budgetRow_totalT, budgetRow_labourJ, budgetRow_materialM, hall]
    linarith [hx.1, hx.2, hsum]

/-- Witness for C1 at both branches: the default task (no estimate,
other components summing to 55) and a task with estimate 500. -/
theorem C1_task_total_identity_witness :
    ((budgetRow 0 1 none {}).totalT =
      (budgetRow 0 1 none {}).labourJ + (budgetRow 0 1 none {}).materialM +
        (budgetRow 0 1 none {}).travelN + (budgetRow 0 1 none {}).equipmentO +
        (budgetRow 0 1 none {}).fixedP + (budgetRow 0 1 none {}).miscQ) ∧
    ((budgetRow 0 1 none { estimated_cost := Scalar.num 500 }).totalT =
      (budgetRow 0 1 none { estimated_cost := Scalar.num 500 }).labourJ +
        (budgetRow 0 1 none { estimated_cost := Scalar.num 500 }).materialM +
        (budgetRow 0 1 none { estimated_cost := Scalar.num 500 }).travelN +
        (budgetRow 0 1 none { estimated_cost := Scalar.num 500 }).equipmentO +
        (budgetRow 0 1 none { estimated_cost := Scalar.num 500 }).fixedP +
        (budgetRow 0 1 none { estimated_cost := Scalar.num 500 }).miscQ) := by
  constructor
  · exact (C1_task_total_identity 0 1 none {}).1 rfl
      ⟨5500, by norm_num [other_total, other_components, to_number, market_travel,
        market_equipment, market_fixed, market_misc]⟩
  · exact (C1_task_total_identity 0 1 none { estimated_cost := Scalar.num 500 }).2 500 44500
      (by norm_num [overrideVal, ovr, estimatedOf, pyOrNum, to_number])
      (by norm_num [other_total, other_components, to_number, market_travel,
        market_equipment, market_fixed, market_misc])
      (by norm_num [other_total, other_components, to_number, market_travel,
        market_equipment, market_fixed, market_misc])

/-- C4 counterexample: with estimate 100.001 and all four scalar
components supplied as 0, the final labour and material totals are 44.44
and 55.56, summing to 100.00 rather than `E - O = 100.001` — the rounded
residual assignment is exact only to the cent, refuting the unconditional
no-rounding-drift claim. -/
theorem C4_counterexample :
    (budgetRow 0 1 none
        { estimated_cost := .num (100001/1000),
          costs := { travel := .num 0, equipment := .num 0, fixed := .num 0,
                     misc := .num 0 } }).labourJ +
      (budgetRow 0 1 none
        { estimated_cost := .num (100001/1000),
          costs := { travel := .num 0, equipment := .num 0, fixed := .num 0,
                     misc := .num 0 } }).materialM ≠ (100001/1000 : ℚ) - 0 := by
  norm_num [budgetRow, allocate, override_alloc, baseline_alloc, estimatedOf, pyOrNum,
    to_number, baseline_labour_material, baseline_labour, baseline_material, other_total,
    other_components, market_labour_hour, market_labour_per_hr, market_material_units,
    market_material_per_unit, market_travel, market_equipment, market_fixed, market_misc,
    pyRound, rhe]

/-- C4 (amended): Override branch — for a task whose selected override
`e` satisfies `e ≥ O` with `e − O` a whole number of hundredths (`O` the
other-components sum), the finalized labour and material totals satisfy
`labour + material = e − O` exactly, and the written task total is `e`
verbatim, not a recomputation from parts. -/
theorem C4_override_exact (sd n : Nat) (tb : Option ℚ) (t : Task) (e : ℚ) (m : ℤ)
    (hov : overrideVal t = some e)
    (hge : other_total t.costs ≤ e)
    (hm : e - other_total t.costs = (m : ℚ) / 100) :
    (budgetRow sd n tb t).labourJ + (budgetRow sd n tb t).materialM =
        e - other_total t.costs ∧
      (budgetRow sd n tb t).totalT = e := by
  have hall := (allocate_of_ovr_some (baseline_labour t.costs) (baseline_material t.costs)
    (other_total t.costs) (estimatedOf t) e hov).1
  have hx := override_alloc_exact (baseline_labour t.costs) (baseline_material t.costs)
    (other_total t.costs) e m hge hm
  rw [budgetRow_labourJ, budgetRow_materialM, budgetRow_totalT, hall]
  exact hx

/-- Witness for C4: estimate 500 over the default components (O = 55,
remainder 445 an exact number of cents). -/
theorem C4_override_exact_witness :
    (budgetRow 0 1 none { estimated_cost := Scalar.num 500 }).labourJ +
        (budgetRow 0 1 none { estimated_cost := Scalar.num 500 }).materialM =
        500 - other_total ({} : Costs) ∧
      (budgetRow 0 1 none { estimated_cost := Scalar.num 500 }).totalT = 500 := by
  exact C4_override_exact 0 1 none { estimated_cost := Scalar.num 500 } 500 44500
    (by norm_num [overrideVal, ovr, estimatedOf, pyOrNum, to_number])
    (by norm_num [other_total, other_components, to_number, market_travel,
      market_equipment, market_fixed, market_misc])
    (by norm_num [other_total, other_components, to_number, market_travel,
      market_equipment, market_fixed, market_misc])

/-- C2 counterexample: labour supplied as `{hours: 2, per_hr: 10,
total: 999}` — quantity and rate are both supplied, yet the resolver's
baseline is the supplied total 999, not `2 × 10 = 20`: a supplied total is
never ignored in favour of quantity × rate. -/
theorem C2_counterexample :
    baseline_labour { labour := LabourVal.dict { hours := Scalar.num 2,
                                                 per_hr := Scalar.num 10,
                                                 total := Scalar.num 999 } } = 999 ∧
      (999 : ℚ) ≠ 2 * 10 := by
  constructor
  · norm_num [baseline_labour, to_number]
  · norm_num

/-- C2 (amended): in the Cost Baseline Resolver a directly supplied,
parseable total always is the baseline whenever it is present, whether or
not a quantity or rate is also supplied; quantity (supplied or market
default) × rate (supplied or market default) is used only when no
parseable total is supplied. -/
theorem C2_total_priority (c : Costs) :
    (∀ l : LabourDict, c.labour = LabourVal.dict l →
      ((∀ tv, to_number l.total = some tv → baseline_labour c = tv) ∧
       (to_number l.total = none → baseline_labour c =
         (to_number l.hours).getD market_labour_hour *
           (to_number l.per_hr).getD market_labour_per_hr))) ∧
    (∀ m : MaterialDict, c.material = MaterialVal.dict m →
      ((∀ tv, to_number m.total = some tv → baseline_material c = tv) ∧
       (to_number m.total = none → baseline_material c =
         (to_number m.units).getD market_material_units *
           (to_number m.per_unit).getD market_material_per_unit))) := by
  constructor
  · intro l hl
    constructor
    · intro tv htv
      simp [baseline_labour, hl, htv]
    · intro htv
      simp [baseline_labour, hl, htv]
  · intro m hm
    constructor
    · intro tv htv
      simp [baseline_material, hm, htv]
    · intro htv
      simp [baseline_material, hm, htv]

/-- Witness for C2 at the counterexample costs: the supplied total 999
wins over the supplied pair (2, 10). -/
theorem C2_total_priority_witness :
    baseline_labour { labour := LabourVal.dict { hours := Scalar.num 2,
                                                 per_hr := Scalar.num 10,
                                                 total := Scalar.num 999 } } = 999 :=
  ((C2_total_priority { labour := LabourVal.dict { hours := Scalar.num 2,
                                                   per_hr := Scalar.num 10,
                                                   total := Scalar.num 999 } }).1
    { hours := Scalar.num 2, per_hr := Scalar.num 10, total := Scalar.num 999 } rfl).1
    999 rfl

/-- C3 counterexample: `T = 100` with `first = 3` supplied returns
`(3, 33.3333)`, whose product `99.9999` misses `T` by `10⁻⁴ > 10⁻⁶`. -/
theorem C3_counterexample :
    ¬ (|(backsolve_pair (some 100) (some 3) none (some 8) (some 25) 4).1 *
          (backsolve_pair (some 100) (some 3) none (some 8) (some 25) 4).2 - 100| ≤
        1 / 1000000) := by
  have hv : backsolve_pair (some 100) (some 3) none (some 8) (some 25) 4 =
      (3, 333333/10000) := by
    norm_num [backsolve_pair, suppliedNZ, pyRound, rhe]
  rw [hv]
  rw [show ((3 : ℚ), (333333/10000 : ℚ)).1 * ((3 : ℚ), (333333/10000 : ℚ)).2 - 100 =
    -(1/10000) by norm_num]
  rw [abs_neg, abs_of_nonneg (by norm_num : (0:ℚ) ≤ 1/10000)]
  norm_num

/-- C3 (amended): for every `T > 0` and any combination of supplied/absent
operands, the returned pair `(f, s)` satisfies
`|f·s − T| ≤ max |f| |s| · 5·10⁻⁵`: one operand is anchored (kept verbatim
or taken from the defaults) and the other is `T/anchor` rounded to 4
decimal places, so the product misses `T` by at most half a unit in the
4th decimal, scaled by the anchored operand — a flat `10⁻⁶` bound does not
hold (see the counterexample). -/
theorem C3_product_tolerance (T : ℚ) (first second default_first default_second : Option ℚ)
    (hT : 0 < T) :
    |(backsolve_pair (some T) first second default_first default_second 4).1 *
        (backsolve_pair (some T) first second default_first default_second 4).2 - T| ≤
      max |(backsolve_pair (some T) first second default_first default_second 4).1|
          |(backsolve_pair (some T) first second default_first default_second 4).2| *
        (1 / 20000) := by
  have hTle : ¬ ((some T).getD 0 ≤ 0) := by simpa using not_le.mpr hT
  unfold backsolve_pair
  rw [if_neg hTle]
  simp only [Option.getD_some]
  split_ifs with h1 h2 h3
  · rw [Bool.and_eq_true] at h1
    have hf : first.getD 0 ≠ 0 := suppliedNZ_getD first h1.1
    dsimp only
    refine le_trans (backsolve_err T _ hf) ?_
    exact mul_le_mul_of_nonneg_right (le_max_left _ _) (by norm_num)
  · have hf : first.getD 0 ≠ 0 := suppliedNZ_getD first h2
    dsimp only
    refine le_trans (backsolve_err T _ hf) ?_
    exact mul_le_mul_of_nonneg_right (le_max_left _ _) (by norm_num)
  · have hs : second.getD 0 ≠ 0 := suppliedNZ_getD second h3
    dsimp only
    rw [mul_comm]
    refine le_trans (backsolve_err T _ hs) ?_
    exact mul_le_mul_of_nonneg_right (le_max_right _ _) (by norm_num)
  · have hf : backsolveAnchor default_first ≠ 0 := backsolveAnchor_ne_zero default_first
    dsimp only
    refine le_trans (backsolve_err T _ hf) ?_
    exact mul_le_mul_of_nonneg_right (le_max_left _ _) (by norm_num)

/-- Witness for C3 at `T = 100`, `first = 3`. -/
theorem C3_product_tolerance_witness :
    |(backsolve_pair (some 100) (some 3) none (some 8) (some 25) 4).1 *
        (backsolve_pair (some 100) (some 3) none (some 8) (some 25) 4).2 - 100| ≤
      max |(backsolve_pair (some 100) (some 3) none (some 8) (some 25) 4).1|
          |(backsolve_pair (some 100) (some 3) none (some 8) (some 25) 4).2| *
        (1 / 20000) :=
  C3_product_tolerance 100 (some 3) none (some 8) (some 25) (by norm_num)

/-- C5 counterexample: with `budget = 0` and `est_cost = 7` (and no
`estimated_cost`), the first non-null candidate is the zero budget, yet
the source's `or`-chain treats the parsed 0.0 as falsy and selects 7 —
zero does not win over later candidates. -/
theorem C5_counterexample :
    estimatedOf { budget := Scalar.num 0, est_cost := Scalar.num 7 } = some 7 ∧
      (some (0 : ℚ)) ≠ some 7 := by
  constructor
  · norm_num [estimatedOf, pyOrNum, to_number]
  · norm_num

/-- C5 (amended): the Allocation Engine enters the Override state exactly
when the selected estimate is present and non-negative.  The selection
walks estimated_cost, budget, est_cost, cost in that fixed order, but only
the first candidate (checked with `is not None`) and the trailing `or`
operand `cost` keep a parsed zero; a zero parsed from `budget` or
`est_cost` is skipped as falsy, so absence and zero are distinguishable
only at those two positions. -/
theorem C5_override_selection (t : Task) :
    (estimatedOf t =
      match to_number t.estimated_cost with
      | some e => some e
      | none =>
        match to_number t.budget with
        | some b =>
          if b = 0 then
            match to_number t.est_cost with
            | some c => if c = 0 then to_number t.cost else some c
            | none => to_number t.cost
          else some b
        | none =>
          match to_number t.est_cost with
          | some c => if c = 0 then to_number t.cost else some c
          | none => to_number t.cost) ∧
    (∀ e : ℚ, overrideVal t = some e ↔ (estimatedOf t = some e ∧ 0 ≤ e)) ∧
    (∀ lb mb ot : ℚ, allocate lb mb ot (estimatedOf t) =
      match overrideVal t with
      | some e => override_alloc lb mb ot e
      | none => baseline_alloc lb mb ot) := by
  refine ⟨estimatedOf_eq t, ?_, ?_⟩
  · intro e
    unfold overrideVal ovr
    cases hx : estimatedOf t with
    | none => simp
    | some e0 =>
      dsimp only
      by_cases h0 : 0 ≤ e0
      · rw [if_pos h0]
        constructor
        · intro h
          have he := Option.some.inj h
          subst he
          exact ⟨rfl, h0⟩
        · intro h
          exact h.1
      · rw [if_neg h0]
        constructor
        · intro h
          exact Option.noConfusion h
        · rintro ⟨h, he⟩
          have hee := Option.some.inj h
          subst hee
          exact absurd he h0
  · intro lb mb ot
    exact allocate_ovr lb mb ot (estimatedOf t)

/-- Witness for C5: at the counterexample task the override holds the
selected value 7. -/
theorem C5_override_selection_witness :
    overrideVal { budget := Scalar.num 0, est_cost := Scalar.num 7 } = some 7 ↔
      (estimatedOf { budget := Scalar.num 0, est_cost := Scalar.num 7 } = some 7 ∧
        (0 : ℚ) ≤ 7) :=
  (C5_override_selection { budget := Scalar.num 0, est_cost := Scalar.num 7 }).2.1 7

/-- C7 counterexample: a supplied travel cost of −10 passes straight
through `_other_components`, so the travel baseline is −10 < 0, refuting
the unconditional non-negativity guarantee. -/
theorem C7_counterexample :
    (other_components { travel := Scalar.num (-10) }).travel = -10 ∧
      ¬ (0 ≤ (other_components { travel := Scalar.num (-10) }).travel) := by
  constructor
  · norm_num [other_components, to_number]
  · norm_num [other_components, to_number]

/-- C7 (amended): the resolver is a total function of the costs mapping —
every category always yields a numeric baseline (absent, unparsable and
structured inputs all degrade to supplied values or market defaults,
never an exception) — and each of the six baselines is non-negative
provided every numeric value supplied in the mapping is non-negative;
supplied negative numbers are passed through, so the unconditional `≥ 0`
guarantee fails (see the counterexample). -/
theorem C7_resolver_nonneg (c : Costs) (h : costs_nonneg c = true) :
    0 ≤ baseline_labour c ∧ 0 ≤ baseline_material c ∧
      0 ≤ (other_components c).travel ∧ 0 ≤ (other_components c).equipment ∧
      0 ≤ (other_components c).fixed ∧ 0 ≤ (other_components c).misc := by
  unfold costs_nonneg at h
  simp only [Bool.and_eq_true] at h
  obtain ⟨⟨⟨⟨⟨hlab, hmat⟩, htr⟩, heq⟩, hfx⟩, hms⟩ := h
  refine ⟨baseline_labour_nonneg c hlab, baseline_material_nonneg c hmat, ?_, ?_, ?_, ?_⟩
  · exact scalar_nonneg_getD c.travel market_travel (by norm_num [market_travel]) htr
  · exact scalar_nonneg_getD c.equipment market_equipment (by norm_num [market_equipment]) heq
  · exact scalar_nonneg_getD c.fixed market_fixed (by norm_num [market_fixed]) hfx
  · exact scalar_nonneg_getD c.misc market_misc (by norm_num [market_misc]) hms

/-- Witness for C7 at the empty costs mapping (all market defaults). -/
theorem C7_resolver_nonneg_witness :
    0 ≤ baseline_labour ({} : Costs) ∧ 0 ≤ baseline_material ({} : Costs) ∧
      0 ≤ (other_components ({} : Costs)).travel ∧
      0 ≤ (other_components ({} : Costs)).equipment ∧
      0 ≤ (other_components ({} : Costs)).fixed ∧
      0 ≤ (other_components ({} : Costs)).misc :=
  C7_resolver_nonneg {} rfl

/-- C8 counterexample: a task with a start date and no end date gets its
Gantt-row end backfilled with the start, but its budget-row end cell is
written blank (`None`), not the start — the end-falls-back-to-start rule
does not hold in both materialized outputs. -/
theorem C8_counterexample :
    (budgetRow 3 1 none { start := some 5 }).endG = none ∧
      (ganttRow 3 { start := some 5 }).endG = 5 ∧
      ((none : Option Nat) ≠ some 5) := by
  refine ⟨rfl, rfl, ?_⟩
  simp

/-- C8 (amended): in both materialized outputs the written planned start
falls back to the resolved project start when the task start is absent or
unparsable; the written planned end falls back to the (already resolved)
start in the Gantt sheet, but in the budget sheet an absent or unparsable
end is written as an empty cell. -/
theorem C8_date_fallbacks (sd : Nat) (tasks : List Task) (i : Nat) (t : Task)
    (h : tasks.get? i = some t) (tb : Option ℚ) :
    (fill_gantt_rows sd tasks).get? i = some (ganttRow sd t) ∧
    (ganttRow sd t).startF = t.start.getD sd ∧
    (ganttRow sd t).endG = t.end_.getD (t.start.getD sd) ∧
    (fill_budget_rows sd tb tasks).get? i = some (budgetRow sd tasks.length tb t) ∧
    (budgetRow sd tasks.length tb t).startE = t.start.getD sd ∧
    (budgetRow sd tasks.length tb t).endG = t.end_ := by
  refine ⟨?_, rfl, rfl, ?_, rfl, rfl⟩
  · rw [fill_gantt_rows_get, h]
    rfl
  · rw [fill_budget_rows_get, h]
    rfl

/-- Witness for C8 at a one-task project with start 5 and no end. -/
theorem C8_date_fallbacks_witness :
    (fill_gantt_rows 3 [{ start := some 5 }]).get? 0 =
        some (ganttRow 3 { start := some 5 }) ∧
      (ganttRow 3 { start := some 5 }).endG = 5 ∧
      (budgetRow 3 1 none { start := some 5 }).endG = none := by
  have h := C8_date_fallbacks 3 [{ start := some 5 }] 0 { start := some 5 } rfl none
  exact ⟨h.1, h.2.2.1, h.2.2.2.2.2⟩

/-- C10 counterexample: with `T = 10⁻⁴ > 0`, `first = 0` and `second = 8`
supplied, the pair returned is `(0, 8)` — the recomputed first operand
`round(T/8, 4)` is itself 0, so the output does preserve the
caller-supplied zero in the first position. -/
theorem C10_counterexample :
    backsolve_pair (some (1/10000)) (some 0) (some 8) (some 8) (some 25) 4 = (0, 8) ∧
      (0 : ℚ) < 1/10000 := by
  constructor
  · norm_num [backsolve_pair, suppliedNZ, pyRound, rhe, Prod.ext_iff]
  · norm_num

/-- C10 (amended): for every `T > 0` the back-solver treats a supplied
zero operand exactly like an absent one — `first = 0` with `second = s ≠ 0`
yields `(round(T/s, 4), s)`; `first = f ≠ 0` (regardless of `second`)
yields `(f, round(T/f, 4))`; both operands zero or absent anchor on
`default_first`, substituting 1 when that default is zero or absent — the
zero position is always recomputed, although the recomputed value
`round(T/anchor, 4)` can itself be 0 for tiny `T` (see the
counterexample). -/
theorem C10_zero_operands (T : ℚ) (hT : 0 < T) :
    (∀ (s : ℚ) (df ds : Option ℚ), s ≠ 0 →
      backsolve_pair (some T) (some 0) (some s) df ds 4 = (pyRound (T / s) 4, s)) ∧
    (∀ (f : ℚ) (so df ds : Option ℚ), f ≠ 0 →
      backsolve_pair (some T) (some f) so df ds 4 = (f, pyRound (T / f) 4)) ∧
    (∀ (fo so df ds : Option ℚ),
      (fo = none ∨ fo = some 0) → (so = none ∨ so = some 0) →
      backsolve_pair (some T) fo so df ds 4 =
        (backsolveAnchor df, pyRound (T / backsolveAnchor df) 4)) ∧
    (backsolveAnchor none = 1 ∧ backsolveAnchor (some 0) = 1 ∧
      ∀ d : ℚ, d ≠ 0 → backsolveAnchor (some d) = d) := by
  have hTle : ¬ (T ≤ 0) := not_le.mpr hT
  have hz : suppliedNZ (some 0) = false := by simp [suppliedNZ]
  refine ⟨?_, ?_, ?_, ?_, ?_, ?_⟩
  · intro sv df ds hs
    have hsnz : suppliedNZ (some sv) = true := by simp [suppliedNZ, hs]
    simp [backsolve_pair, hz, hsnz, hTle]
  · intro f so df ds hf
    have hfnz : suppliedNZ (some f) = true := by simp [suppliedNZ, hf]
    cases hso : suppliedNZ so <;> simp [backsolve_pair, hfnz, hso, hTle]
  · intro fo so df ds hfo hso
    have hfz : suppliedNZ fo = false := by
      rcases hfo with h | h <;> simp [h, suppliedNZ]
    have hsz : suppliedNZ so = false := by
      rcases hso with h | h <;> simp [h, suppliedNZ]
    simp [backsolve_pair, hfz, hsz, hTle]
  · rfl
  · simp [backsolveAnchor, suppliedNZ]
  · intro d hd
    simp [backsolveAnchor, suppliedNZ, hd]

/-- Witness for C10: `T = 100`, `first = 0`, `second = 4` gives
`(25, 4)`. -/
theorem C10_zero_operands_witness :
    backsolve_pair (some 100) (some 0) (some 4) (some 8) (some 25) 4 =
      (pyRound (100 / 4) 4, 4) :=
  (C10_zero_operands 100 (by norm_num)).1 4 (some 8) (some 25) (by norm_num)

end Gantt
